import Mathlib

/-!
Shallow embedding of the pymodbus client core
(`pymodbus/client/serial.py` and `pymodbus/client/mixin.py`)
and proofs of the specified properties.

Conventions of the embedding:
* Python `float` timing arithmetic is modelled over `ℚ`; `round(x, 6)` is
  modelled by `pyRound6` (round to the nearest multiple of 10⁻⁶, ties to
  even, as Python's `round` does).
* The synchronous client is a record holding the optional serial socket
  (receive buffer plus a log of the writes performed) and the transaction
  state; `send`/`recv` are state-passing functions.
* The asynchronous client is a record of the fields `close`,
  `client_lost_connection`, `_launch_reconnect` and `_reconnect` touch;
  each operation returns the new state together with the list of observable
  actions it performs, in order.
* `_wait_for_data` polls the serial port in real time; it is modelled as a
  function of the finite trace of `in_waiting` observations the polls see
  (the end of the trace models expiry of the timeout window).
-/

namespace Pymodbus

/-- Transaction phases of a connection.  Modelled from the spec:
`ModbusTransactionState` lives in `pymodbus/utilities.py`, which is not part
of the shown sources; the spec's data model lists exactly the phases
Idle, Sending and Retrying. -/
inductive ModbusTransactionState where
  | IDLE
  | SENDING
  | RETRYING
  deriving DecidableEq

/-- The underlying serial socket of the synchronous client: the bytes
waiting in the receive buffer (`in_waiting` is their count) and the log of
payloads written so far. -/
structure SerialSocket where
  inBuffer : List ℕ
  written : List (List ℕ)
  deriving DecidableEq

/-- State of `ModbusSerialClient`: the optional socket (`None` = closed)
and the transaction state. -/
structure ModbusSerialClient where
  socket : Option SerialSocket
  state : ModbusTransactionState
  deriving DecidableEq

/-- Errors raised by the synchronous transport. -/
inductive SendError where
  | connectionException
  deriving DecidableEq

/-- Value returned by `ModbusSerialClient.send`: either the stale bytes
returned in the `RETRYING` short-circuit, or the byte count reported by
`socket.write` (0 for an empty request). -/
inductive SendResult where
  | stale (bs : List ℕ)
  | size (n : ℕ)
  deriving DecidableEq

/-- `ModbusSerialClient.send` (serial.py, lines 273-300).  The base-class
hook `super().send(request)` is modelled from the spec as a no-op: the base
client is not part of the shown sources and the spec describes `send`
entirely by this method's body.  Mirrors the source: raise if the socket is
closed; for a non-empty request read out any waiting bytes (returning them
unchanged when the state is RETRYING, discarding them with a log line
otherwise), move to SENDING (the `if state != SENDING` guard only avoids a
redundant assignment; the post-state is SENDING either way) and write the
request; for an empty request return 0 untouched. -/
def ModbusSerialClient.send (c : ModbusSerialClient) (request : List ℕ) :
    Except SendError SendResult × ModbusSerialClient :=
  match c.socket with
  | none => (Except.error SendError.connectionException, c)
  | some sock =>
    if request ≠ [] then
      if sock.inBuffer.length ≠ 0 ∧ c.state = ModbusTransactionState.RETRYING then
        (Except.ok (SendResult.stale sock.inBuffer),
          { c with socket := some { sock with inBuffer := [] } })
      else
        (Except.ok (SendResult.size request.length),
          { socket := some { inBuffer := [], written := sock.written ++ [request] },
            state := ModbusTransactionState.SENDING })
    else
      (Except.ok (SendResult.size 0), c)

/-- Observable actions of the asynchronous client, in the order the code
performs them. -/
inductive AsyncAction where
  | transportClose
  | asyncCloseCall
  | teardownSleep
  | cancelTask
  | logWarning
  | createTask
  | sleepMs (ms : ℕ)
  | setDelay (ms : ℕ)
  | clearTask
  | connectCall
  deriving DecidableEq

/-- State of `AsyncModbusSerialClient` relevant to close / reconnect:
`delay_ms` and `reconnect_delay_max` are milliseconds; `reconnect_task`
is whether `_reconnect_task` currently holds a pending task;
`connected` is whether `_connected_event` is set. -/
structure AsyncModbusSerialClient where
  delay_ms : ℕ
  reconnect_delay_max : ℕ
  reconnect_task : Bool
  connected : Bool
  deriving DecidableEq

/-- `AsyncModbusSerialClient._launch_reconnect` (serial.py, lines 145-154):
if a reconnect task is already pending, only log a warning; otherwise
create the task and store its handle. -/
def AsyncModbusSerialClient.launch_reconnect (c : AsyncModbusSerialClient) :
    AsyncModbusSerialClient × List AsyncAction :=
  if c.reconnect_task then
    (c, [AsyncAction.logWarning])
  else
    ({ c with reconnect_task := true }, [AsyncAction.createTask])

/-- `AsyncModbusSerialClient.close` (serial.py, lines 76-90): zero
`delay_ms` to prevent reconnection, tear the transport down if connected,
then cancel and clear any pending reconnect task. -/
def AsyncModbusSerialClient.close (c : AsyncModbusSerialClient) :
    AsyncModbusSerialClient × List AsyncAction :=
  let c1 : AsyncModbusSerialClient := { c with delay_ms := 0 }
  let teardown : List AsyncAction :=
    if c1.connected then
      [AsyncAction.transportClose, AsyncAction.asyncCloseCall, AsyncAction.teardownSleep]
    else []
  if c1.reconnect_task then
    ({ c1 with reconnect_task := false }, teardown ++ [AsyncAction.cancelTask])
  else
    (c1, teardown)

/-- `AsyncModbusSerialClient.client_lost_connection` (serial.py, lines
135-143): clear the connected event, then launch a reconnect iff
`delay_ms` is non-zero. -/
def AsyncModbusSerialClient.client_lost_connection (c : AsyncModbusSerialClient) :
    AsyncModbusSerialClient × List AsyncAction :=
  let c1 : AsyncModbusSerialClient := { c with connected := false }
  if c1.delay_ms ≠ 0 then c1.launch_reconnect else (c1, [])

/-- The `except` branch of `AsyncModbusSerialClient.connect` (serial.py,
lines 121-124): on a failed connection attempt, launch a reconnect iff
`delay_ms > 0`. -/
def AsyncModbusSerialClient.connect_failure (c : AsyncModbusSerialClient) :
    AsyncModbusSerialClient × List AsyncAction :=
  if c.delay_ms > 0 then c.launch_reconnect else (c, [])

/-- `AsyncModbusSerialClient._reconnect` (serial.py, lines 156-163): the
reconnect task sleeps `delay_ms` milliseconds, doubles the delay capped at
`reconnect_delay_max`, clears the pending-task handle, and re-invokes
`connect()`. -/
def AsyncModbusSerialClient.reconnect (c : AsyncModbusSerialClient) :
    AsyncModbusSerialClient × List AsyncAction :=
  let newDelay : ℕ := min (2 * c.delay_ms) c.reconnect_delay_max
  ({ c with delay_ms := newDelay, reconnect_task := false },
   [AsyncAction.sleepMs c.delay_ms, AsyncAction.setDelay newDelay,
    AsyncAction.clearTask, AsyncAction.connectCall])

/-- The reconnect delay held after `n` completed reconnect sleeps, starting
from initial delay `d` with ceiling `M`: each failed attempt runs
`reconnect`, whose delay update this iterates. -/
def delayAfterFailures (d M : ℕ) : ℕ → ℕ
  | 0 => d
  | n + 1 =>
      (AsyncModbusSerialClient.reconnect
        { delay_ms := delayAfterFailures d M n, reconnect_delay_max := M,
          reconnect_task := true, connected := false }).1.delay_ms

/-- Python's `round(x, 6)` scaled to an integer count of microseconds:
the nearest integer to `x * 10⁶`, ties going to the even integer, as
Python's banker's rounding does. -/
def pyRound6Int (q : ℚ) : ℤ :=
  let scaled : ℚ := q * 1000000
  let fl : ℤ := ⌊scaled⌋
  if scaled - fl = 1 / 2 then (if fl % 2 = 0 then fl else fl + 1)
  else round scaled

/-- Python's `round(x, 6)` over `ℚ`: `x` rounded to the nearest multiple
of 10⁻⁶, ties to even. -/
def pyRound6 (q : ℚ) : ℚ := (pyRound6Int q : ℚ) / 1000000

/-- The derived RTU timing fields of `ModbusSerialClient`; both default
to 0 as class attributes (serial.py, lines 196-197). -/
structure RtuTiming where
  inter_char_timeout : ℚ
  silent_interval : ℚ
  deriving DecidableEq

/-- The RTU-framer branch of `ModbusSerialClient.__init__` (serial.py,
lines 221-228): for baud rates above 19200 the silent interval is fixed at
1.75 ms and the inter-character timeout keeps its class default 0;
otherwise both are derived from the 11-bit character time `t0`.  Only
`silent_interval` is then passed through `round(_, 6)`. -/
def serialClientInitTiming (baudrate : ℕ) : RtuTiming :=
  let pre : RtuTiming :=
    if baudrate > 19200 then
      { inter_char_timeout := 0, silent_interval := 1.75 / 1000 }
    else
      let t0 : ℚ := (1 + 8 + 2) / (baudrate : ℚ)
      { inter_char_timeout := 1.5 * t0, silent_interval := 3.5 * t0 }
  { pre with silent_interval := pyRound6 pre.silent_interval }

/-- A request PDU as the dispatcher sees it (spec data model): a function
code plus opaque payload bytes. -/
structure ModbusRequest where
  function_code : ℕ
  payload : List ℕ
  deriving DecidableEq

/-- A response PDU: a function code plus opaque payload bytes. -/
structure ModbusResponse where
  function_code : ℕ
  payload : List ℕ
  deriving DecidableEq

/-- `pymodbus.exceptions.ModbusException`, the protocol error, carrying
its message. -/
inductive ModbusException where
  | mk (message : String)
  deriving DecidableEq

/-- Modelled from the spec: `INTERNAL_ERROR` is imported from
`pymodbus/constants.py`, which is not among the shown sources; per the
spec it is the message of the protocol error raised by the unbound
dispatch base.  Its exact text is irrelevant to the claims. -/
def INTERNAL_ERROR : String := "Pymodbus internal error"

/-- `ModbusClientMixin.execute` (mixin.py, lines 256-267): the unextended
generic dispatch base unconditionally raises `ModbusException`. -/
def ModbusClientMixin.execute (_request : ModbusRequest) :
    Except ModbusException ModbusResponse :=
  Except.error (ModbusException.mk INTERNAL_ERROR)

/-- The polling loop of `ModbusSerialClient._wait_for_data` (serial.py,
lines 302-322), over the trace of successive `in_waiting` observations the
polls see; exhausting the trace models the timeout condition turning
false.  `size` and `more_data` are the loop variables, started at 0 and
`False`. -/
def waitForDataLoop : List ℕ → ℕ → Bool → ℕ
  | [], size, _ => size
  | available :: rest, size, more_data =>
    if (more_data = true ∧ available = 0) ∨ (more_data = true ∧ available = size) then
      size
    else if available ≠ 0 ∧ available ≠ size then
      waitForDataLoop rest available true
    else
      waitForDataLoop rest size more_data

/-- `ModbusSerialClient._wait_for_data` over an observation trace. -/
def _wait_for_data (polls : List ℕ) : ℕ := waitForDataLoop polls 0 false

/-- `ModbusSerialClient.recv` (serial.py, lines 324-336) on an open socket
with an explicit requested `size`: when the request exceeds the bytes
currently available (`in_waiting_now`), the size is replaced by the count
`_wait_for_data` stabilizes at over the observation trace `polls`, and
`socket.read` then returns up to that many bytes of the buffer as it
stands after the wait. -/
def recvSized (size : ℕ) (in_waiting_now : ℕ) (polls : List ℕ)
    (finalBuffer : List ℕ) : List ℕ :=
  let size1 := if size > in_waiting_now then _wait_for_data polls else size
  finalBuffer.take size1

end Pymodbus

namespace Pymodbus

/-- Claim C4: sending on a closed synchronous transport raises a
connection error, writes nothing and leaves the whole client state
unchanged. -/
theorem send_closed_raises (c : ModbusSerialClient) (request : List ℕ)
    (h : c.socket = none) :
    c.send request = (Except.error SendError.connectionException, c) := by
  unfold ModbusSerialClient.send
  rw [h]

/-- Witness for `send_closed_raises` at a concrete closed client. -/
theorem send_closed_raises_witness :
    (ModbusSerialClient.mk none ModbusTransactionState.IDLE).send [1, 2, 3]
      = (Except.error SendError.connectionException,
         ModbusSerialClient.mk none ModbusTransactionState.IDLE) :=
  send_closed_raises (ModbusSerialClient.mk none ModbusTransactionState.IDLE)
    [1, 2, 3] rfl

/-- Claim C10: sending an empty (falsy) payload on an open transport
returns size 0 and performs no I/O at all: the buffer, the write log and
the transaction state are untouched. -/
theorem send_empty_request_noop (sock : SerialSocket)
    (st : ModbusTransactionState) :
    (ModbusSerialClient.mk (some sock) st).send []
      = (Except.ok (SendResult.size 0), ModbusSerialClient.mk (some sock) st) := by
  unfold ModbusSerialClient.send
  simp

/-- Claim C3: sending a non-empty payload on an open transport whose
receive buffer holds stale bytes: in state RETRYING the stale bytes are
returned (and consumed), nothing is transmitted and the transaction state
is unchanged; in any other state the stale bytes are discarded, the state
moves to SENDING and the payload is written to the socket. -/
theorem send_stale_buffer_behavior (sock : SerialSocket)
    (st : ModbusTransactionState) (request : List ℕ)
    (hreq : request ≠ []) (hbuf : sock.inBuffer ≠ []) :
    (ModbusSerialClient.mk (some sock) st).send request
      = if st = ModbusTransactionState.RETRYING then
          (Except.ok (SendResult.stale sock.inBuffer),
           ModbusSerialClient.mk (some { sock with inBuffer := [] }) st)
        else
          (Except.ok (SendResult.size request.length),
           ModbusSerialClient.mk
             (some { inBuffer := [], written := sock.written ++ [request] })
             ModbusTransactionState.SENDING) := by
  unfold ModbusSerialClient.send
  have hlen : sock.inBuffer.length ≠ 0 := by
    simpa [List.length_eq_zero] using hbuf
  by_cases hst : st = ModbusTransactionState.RETRYING <;>
    simp [hreq, hlen, hst]

/-- Witness for `send_stale_buffer_behavior` at a concrete retrying client
with stale bytes in the buffer. -/
theorem send_stale_buffer_behavior_witness :
    (ModbusSerialClient.mk (some (SerialSocket.mk [9, 8] []))
        ModbusTransactionState.RETRYING).send [1, 2, 3]
      = (Except.ok (SendResult.stale [9, 8]),
         ModbusSerialClient.mk (some (SerialSocket.mk [] []))
           ModbusTransactionState.RETRYING) := by
  have h := send_stale_buffer_behavior (SerialSocket.mk [9, 8] [])
    ModbusTransactionState.RETRYING [1, 2, 3] (by decide) (by decide)
  simpa using h

/-- One step of the backoff recursion: the delay after a further failure
is the double of the previous delay, capped at the ceiling. -/
theorem delayAfterFailures_succ (d M n : ℕ) :
    delayAfterFailures d M (n + 1) = min (2 * delayAfterFailures d M n) M := rfl

/-- Counterexample for claim C2: with initial delay d = 200 ms above the
ceiling M = 100 ms, the very first reconnect task sleeps the uncapped
200 ms (serial.py:159 sleeps before the cap at line 160), while the
claimed formula `min (d * 2 ^ N) M` equals 100 for every N — in
particular for N = 0 and N = 1, the two readings of "follows N
consecutive failures" for the first sleep. -/
theorem reconnect_first_sleep_uncapped_cex :
    delayAfterFailures 200 100 0 ≠ min (200 * 2 ^ 0) 100 ∧
    delayAfterFailures 200 100 0 ≠ min (200 * 2 ^ 1) 100 ∧
    (AsyncModbusSerialClient.reconnect
        (AsyncModbusSerialClient.mk 200 100 true false)).2.head?
      = some (AsyncAction.sleepMs 200) := by
  refine ⟨by decide, by decide, rfl⟩

/-- Claim C2 (amended): the first reconnect sleep is the uncapped initial
delay `d`; the delay slept after `N ≥ 1` consecutive failed reconnect
attempts is `min (d * 2 ^ N) M`; and each reconnect task sleeps the
current delay, then sets the delay to its double capped at the ceiling,
then clears the pending-task handle, then re-invokes `connect()`, in that
order. -/
theorem reconnect_backoff_amended (d M N : ℕ) (c : AsyncModbusSerialClient) :
    delayAfterFailures d M N = (if N = 0 then d else min (d * 2 ^ N) M) ∧
    c.reconnect
      = ({ c with delay_ms := min (2 * c.delay_ms) c.reconnect_delay_max,
                  reconnect_task := false },
         [AsyncAction.sleepMs c.delay_ms,
          AsyncAction.setDelay (min (2 * c.delay_ms) c.reconnect_delay_max),
          AsyncAction.clearTask, AsyncAction.connectCall]) := by
  refine ⟨?_, rfl⟩
  induction N with
  | zero => simp [delayAfterFailures]
  | succ n ih =>
      cases n with
      | zero =>
          simp [delayAfterFailures, AsyncModbusSerialClient.reconnect]
          omega
      | succ m =>
          have ih' : delayAfterFailures d M (m + 1) = min (d * 2 ^ (m + 1)) M := by
            simpa using ih
          rw [delayAfterFailures_succ, ih',
            if_neg (by omega : ¬ (m + 1 + 1 = 0))]
          have hpow : d * 2 ^ (m + 1 + 1) = 2 * (d * 2 ^ (m + 1)) := by ring
          rw [hpow]
          generalize d * 2 ^ (m + 1) = a
          omega

/-- Claim C6: requesting a reconnect launch while a reconnect task is
already pending is a no-op: the state is unchanged and the only action is
a logged warning (no task is created). -/
theorem launch_reconnect_noop_when_pending (c : AsyncModbusSerialClient)
    (h : c.reconnect_task = true) :
    c.launch_reconnect = (c, [AsyncAction.logWarning]) := by
  simp [AsyncModbusSerialClient.launch_reconnect, h]

/-- Witness for `launch_reconnect_noop_when_pending` at a concrete client
with a pending reconnect task. -/
theorem launch_reconnect_noop_when_pending_witness :
    (AsyncModbusSerialClient.mk 100 300000 true true).reconnect_task = true ∧
    (AsyncModbusSerialClient.mk 100 300000 true true).launch_reconnect
      = (AsyncModbusSerialClient.mk 100 300000 true true,
         [AsyncAction.logWarning]) :=
  ⟨by decide,
   launch_reconnect_noop_when_pending
     (AsyncModbusSerialClient.mk 100 300000 true true) (by decide)⟩

/-- Claim C7: after `close()` the delay is zero and no reconnect task is
pending; a pending task is cancelled exactly when one existed; and neither
a subsequent connection-loss notification nor a subsequent connect failure
launches a reconnect. -/
theorem close_prevents_reconnect (c : AsyncModbusSerialClient) :
    c.close.1.delay_ms = 0 ∧
    c.close.1.reconnect_task = false ∧
    (AsyncAction.cancelTask ∈ c.close.2 ↔ c.reconnect_task = true) ∧
    c.close.1.client_lost_connection.1.reconnect_task = false ∧
    AsyncAction.createTask ∉ c.close.1.client_lost_connection.2 ∧
    c.close.1.connect_failure.1.reconnect_task = false ∧
    AsyncAction.createTask ∉ c.close.1.connect_failure.2 := by
  obtain ⟨d, M, task, conn⟩ := c
  cases task <;> cases conn <;>
    simp [AsyncModbusSerialClient.close,
      AsyncModbusSerialClient.client_lost_connection,
      AsyncModbusSerialClient.connect_failure,
      AsyncModbusSerialClient.launch_reconnect]

/-- `pyRound6` fixes every integer multiple of 10⁻⁶. -/
theorem pyRound6_int_div (r : ℤ) :
    pyRound6 ((r : ℚ) / 1000000) = (r : ℚ) / 1000000 := by
  have h : ((r : ℚ) / 1000000) * 1000000 = (r : ℚ) := by field_simp
  norm_num [pyRound6, pyRound6Int, h, Int.floor_intCast, round_intCast]

/-- `pyRound6` is idempotent: its image is the microsecond grid. -/
theorem pyRound6_idem (q : ℚ) : pyRound6 (pyRound6 q) = pyRound6 q :=
  pyRound6_int_div (pyRound6Int q)

/-- Claim C1: for an RTU client with baud rate `b > 0`: above 19200 baud
the stored silent interval is exactly 1.75 ms; at or below 19200 baud the
stored silent interval is 3.5 × (11/b) seconds rounded to microsecond
precision, the stored inter-character timeout is 1.5 × (11/b) seconds,
and the silent interval also equals the data-model formulation
`round₆ (max (1.75 ms) (3.5 × char-time))`. -/
theorem rtu_silent_interval_correct (b : ℕ) (hb : 0 < b) :
    (b > 19200 → (serialClientInitTiming b).silent_interval = 1.75 / 1000) ∧
    (b ≤ 19200 →
      (serialClientInitTiming b).silent_interval
          = pyRound6 (3.5 * (11 / (b : ℚ))) ∧
      (serialClientInitTiming b).inter_char_timeout = 1.5 * (11 / (b : ℚ)) ∧
      (serialClientInitTiming b).silent_interval
          = pyRound6 (max (1.75 / 1000) (3.5 * (11 / (b : ℚ))))) := by
  constructor
  · intro hgt
    have h1750 : ((1.75 : ℚ) / 1000) * 1000000 = 1750 := by norm_num
    simp only [serialClientInitTiming, if_pos hgt]
    simp only [pyRound6, pyRound6Int, h1750]
    norm_num [round_eq]
  · intro hle
    have hnot : ¬ (b > 19200) := by omega
    have hbq : (0 : ℚ) < (b : ℚ) := by exact_mod_cast hb
    have hble : (b : ℚ) ≤ 19200 := by exact_mod_cast hle
    have key : (1.75 / 1000 : ℚ) ≤ 3.5 * (11 / (b : ℚ)) := by
      have h38 : (3.5 : ℚ) * (11 / (b : ℚ)) = 38.5 / (b : ℚ) := by ring
      rw [h38, div_le_div_iff₀ (by norm_num) hbq]
      linarith
    refine ⟨?_, ?_, ?_⟩
    · simp only [serialClientInitTiming, if_neg hnot]
      norm_num
    · simp only [serialClientInitTiming, if_neg hnot]
      norm_num
    · rw [max_eq_right key]
      simp only [serialClientInitTiming, if_neg hnot]
      norm_num

/-- Witness for `rtu_silent_interval_correct` at the spec's own scenario,
baud rate 9600. -/
theorem rtu_silent_interval_correct_witness :
    (serialClientInitTiming 9600).silent_interval
        = pyRound6 (3.5 * (11 / (9600 : ℚ))) ∧
    (serialClientInitTiming 9600).inter_char_timeout
        = 1.5 * (11 / (9600 : ℚ)) ∧
    (serialClientInitTiming 9600).silent_interval
        = pyRound6 (max (1.75 / 1000) (3.5 * (11 / (9600 : ℚ)))) :=
  (rtu_silent_interval_correct 9600 (by norm_num)).2 (by norm_num)

/-- Counterexample for claim C8: at baud rate 19200 the stored
inter-character timeout is 1.5 × (11/19200) s = 859.375 µs, which is not
a whole number of microseconds — it is not rounded to microsecond
precision, so the two stored timing values are not both rounded. -/
theorem inter_char_timeout_unrounded_cex :
    (serialClientInitTiming 19200).inter_char_timeout
      ≠ pyRound6 (serialClientInitTiming 19200).inter_char_timeout := by
  have h0 : (serialClientInitTiming 19200).inter_char_timeout
      = 1.5 * (11 / (19200 : ℚ)) := by
    norm_num [serialClientInitTiming]
  have h1 : ((1.5 : ℚ) * (11 / 19200)) * 1000000 = 6875 / 8 := by norm_num
  have h2 : ⌊(6875 / 8 : ℚ)⌋ = 859 := by norm_num [Int.floor_eq_iff]
  rw [h0]
  simp only [pyRound6, pyRound6Int, h1, h2]
  norm_num [round_eq, Int.floor_eq_iff]

/-- Claim C8 (amended): for an RTU client with baud rate `b > 0`, the
stored silent interval is rounded to microsecond precision (it is a fixed
point of `round₆`), while the stored inter-character timeout is kept
unrounded: the raw 1.5 × (11/b) for `b ≤ 19200` and the untouched class
default 0 for `b > 19200`. -/
theorem timing_rounding_amended (b : ℕ) (hb : 0 < b) :
    pyRound6 (serialClientInitTiming b).silent_interval
        = (serialClientInitTiming b).silent_interval ∧
    (serialClientInitTiming b).inter_char_timeout
        = (if b > 19200 then 0 else 1.5 * (11 / (b : ℚ))) := by
  constructor
  · have hs : (serialClientInitTiming b).silent_interval
        = pyRound6 (if b > 19200 then (1.75 / 1000 : ℚ)
                    else 3.5 * ((1 + 8 + 2) / (b : ℚ))) := by
      by_cases h : b > 19200 <;> simp [serialClientInitTiming, h]
    rw [hs, pyRound6_idem]
  · by_cases h : b > 19200 <;> norm_num [serialClientInitTiming, h]

/-- Witness for `timing_rounding_amended` at baud rate 9600. -/
theorem timing_rounding_amended_witness :
    pyRound6 (serialClientInitTiming 9600).silent_interval
        = (serialClientInitTiming 9600).silent_interval ∧
    (serialClientInitTiming 9600).inter_char_timeout
        = (if 9600 > 19200 then 0 else 1.5 * (11 / (9600 : ℚ))) :=
  timing_rounding_amended 9600 (by norm_num)

/-- Claim C5: `execute` on the unextended generic dispatch base raises the
protocol error `ModbusException` for every request value and never returns
a response value. -/
theorem execute_unbound_raises (request : ModbusRequest) :
    ModbusClientMixin.execute request
        = Except.error (ModbusException.mk INTERNAL_ERROR) ∧
    ∀ response : ModbusResponse,
      ModbusClientMixin.execute request ≠ Except.ok response := by
  refine ⟨rfl, ?_⟩
  intro response h
  simp [ModbusClientMixin.execute] at h

/-- Claim C9: `recv` with an explicit requested size can return more bytes
than requested: when the request exceeds the currently available bytes,
the size is replaced by the count the polling wait stabilizes at.  Here 5
bytes are requested with only 2 available; the poll observations grow to 8
and stabilize, so 8 bytes are returned. -/
theorem recv_can_exceed_requested_size :
    ∃ (size avail : ℕ) (polls buffer : List ℕ),
      size > avail ∧ (recvSized size avail polls buffer).length > size := by
  refine ⟨5, 2, [2, 8, 8], [0, 1, 2, 3, 4, 5, 6, 7], ?_, ?_⟩ <;> decide

end Pymodbus
